import Mathlib

/-!
Shallow embedding of `final_assignment.py`: parameterized analytical query
functions over a two-table health-claims schema (`cmspop`, `cmsclaims`).

Modelling conventions:
* Dates are integers (days); `dod - dob` is the day difference, as in Postgres.
* Postgres `numeric`/`float` values are modelled as exact rationals `ℚ`
  (the claims under study are about which columns and aggregates are
  computed, not about binary floating-point rounding); `SQRT` forces the
  standard-deviation outputs into `ℝ`.
* Integer division `(dod-dob)/365` in Postgres truncates toward zero,
  modelled with `Int.tdiv`.
* `ROUND(x::numeric, 2)` rounds half away from zero, modelled by `roundHA`.
* A metric function returns `Except Err <shaped output> × List SqlQuery`:
  the second component is the trace of queries passed to `execute_query`
  (empty when validation fails before the database is reached).
* Connection parameters (`db_name`, `user_name`, `password`) select the
  database; the database itself is passed as an explicit `Db` value and
  `cursor_connect` is not modelled beyond that.
-/

/-- One row of the population table `cmspop`. -/
structure PopRow where
  id : Nat
  race : String
  sex : String
  state : String
  dob : Int
  dod : Option Int
  heart_fail : Bool
  alz_rel_sen : Bool
  depression : Bool
  cancer : Bool
deriving DecidableEq

/-- One row of the claims table `cmsclaims`. -/
structure ClaimRow where
  id : Nat
  carrier_reimb : ℚ
  bene_resp : ℚ
  hmo_mo : ℚ
deriving DecidableEq

/-- The database: the two fixed tables, plus any further tables "with
identical column names" (the docstring of `disease_count_by_race` allows a
`table_name` other than `cmspop` with the same columns). -/
structure Db where
  cmspop : List PopRow
  cmsclaims : List ClaimRow
  other : List (String × List PopRow)

def emptyDb : Db := ⟨[], [], []⟩

/-- `re.sub('\W+', '', s)`: strip every character outside `[A-Za-z0-9_]`. -/
def cleanWord (s : String) : String :=
  String.mk (s.toList.filter (fun c => c.isAlphanum || c = '_'))

/-- Python `str.upper()` on the ASCII strings at hand. -/
def upperAscii (s : String) : String :=
  String.mk (s.toList.map Char.toUpper)

/-- The cleaned state used by the state-scoped metrics: `Othr` is passed
through unchanged, anything else is stripped by `cleanWord` and uppercased. -/
def cleanState (s : String) : String :=
  if s = "Othr" then "Othr" else upperAscii (cleanWord s)

def diseasesList : List String := ["heart_fail", "alz_rel_sen", "depression", "cancer"]

def statesList : List String :=
  ["AK", "AL", "AR", "AZ", "CA", "CO", "CT", "DC", "DE", "FL", "GA", "HI", "IA", "ID", "IL",
   "IN", "KS", "KY", "LA", "MA", "MD", "ME", "MI", "MN", "MO", "MS", "MT", "NC", "ND", "NE",
   "NH", "NJ", "NM", "NV", "NY", "OH", "OK", "OR", "PA", "RI", "SC", "SD", "TN", "TX", "UT",
   "VA", "VT", "WA", "WI", "WV", "WY", "Othr"]

def racesList : List String := ["white", "black", "hispanic", "others"]

def statusesList : List String := ["alive", "dead"]

def statsList : List String := ["mean", "median", "sd"]

def sexesList : List String := ["male", "female"]

/-- Average of a list of rationals; `none` on the empty list (SQL `AVG`
ignores no rows here because callers pre-filter the `NULL`s). -/
def avgQ (l : List ℚ) : Option ℚ :=
  if l.isEmpty then none else some (l.sum / l.length)

/-- SQL `MAX` over a list: `NULL` (`none`) on the empty list. -/
def listMax : List ℚ → Option ℚ
  | [] => none
  | x :: xs =>
    match listMax xs with
    | none => some x
    | some m => some (max x m)

/-- SQL `MIN` over a list: `NULL` (`none`) on the empty list. -/
def listMin : List ℚ → Option ℚ
  | [] => none
  | x :: xs =>
    match listMin xs with
    | none => some x
    | some m => some (min x m)

/-- Postgres `ROUND(q::numeric, 2)`: two decimal places, ties away from zero. -/
def roundHA (q : ℚ) : ℚ :=
  if 0 ≤ q then (⌊q * 100 + 1 / 2⌋ : ℚ) / 100 else -((⌊-q * 100 + 1 / 2⌋ : ℚ) / 100)

/-- Postgres `q::integer` on a `numeric`: round to nearest, ties away from zero. -/
def qRoundInt (q : ℚ) : ℤ :=
  if 0 ≤ q then ⌊q + 1 / 2⌋ else -⌊-q + 1 / 2⌋

/-- Postgres `ROUND(x::numeric, 2)` applied to a real (used after `SQRT`). -/
noncomputable def roundHAR (x : ℝ) : ℝ :=
  if 0 ≤ x then ((⌊x * 100 + 1 / 2⌋ : ℤ) : ℝ) / 100 else -(((⌊-x * 100 + 1 / 2⌋ : ℤ) : ℝ) / 100)

/-- Insertion of `x` into `l` in front of the first element `y` with `le x y`. -/
def insertLe {α : Type} (le : α → α → Bool) (x : α) : List α → List α
  | [] => [x]
  | y :: ys => if le x y then x :: y :: ys else y :: insertLe le x ys

/-- Insertion sort; models the `ORDER BY` clauses (stable enough for the
claims at hand, which never depend on the order of ties). -/
def insertionSort {α : Type} (le : α → α → Bool) : List α → List α
  | [] => []
  | x :: xs => insertLe le x (insertionSort le xs)

theorem mem_insertLe {α : Type} (le : α → α → Bool) (x a : α) (l : List α) :
    a ∈ insertLe le x l ↔ a = x ∨ a ∈ l := by
  induction l with
  | nil => simp [insertLe]
  | cons y ys ih =>
    unfold insertLe
    by_cases h : le x y = true
    · rw [if_pos h]
      simp only [List.mem_cons]
    · rw [if_neg h]
      simp only [List.mem_cons, ih]
      tauto

theorem mem_insertionSort {α : Type} (le : α → α → Bool) (a : α) (l : List α) :
    a ∈ insertionSort le l ↔ a ∈ l := by
  induction l with
  | nil => simp [insertionSort]
  | cons x xs ih => simp [insertionSort, mem_insertLe, ih, List.mem_cons]

/-- `LEFT JOIN` of `cmspop` (left) with `cmsclaims` (right) `ON id`:
every population row appears; with no matching claim the claim side is
`none`; with several matching claims the row is repeated. -/
def popJoinClaims (db : Db) : List (PopRow × Option ClaimRow) :=
  db.cmspop.flatMap fun p =>
    match db.cmsclaims.filter (fun c => c.id = p.id) with
    | [] => [(p, none)]
    | cs => cs.map fun c => (p, some c)

/-- `LEFT JOIN` of `cmsclaims` (left) with `cmspop` (right) `ON id`. -/
def claimsJoinPop (db : Db) : List (ClaimRow × Option PopRow) :=
  db.cmsclaims.flatMap fun c =>
    match db.cmspop.filter (fun p => p.id = c.id) with
    | [] => [(c, none)]
    | ps => ps.map fun p => (c, some p)

/-- Resolution of the four boolean disease-flag columns by name. -/
def diseaseFlag? (col : String) : Option (PopRow → Bool) :=
  if col = "heart_fail" then some (·.heart_fail)
  else if col = "alz_rel_sen" then some (·.alz_rel_sen)
  else if col = "depression" then some (·.depression)
  else if col = "cancer" then some (·.cancer)
  else none

/-- Resolution of the text-valued columns of a population-shaped table. -/
def stringCol? (col : String) : Option (PopRow → String) :=
  if col = "race" then some (·.race)
  else if col = "sex" then some (·.sex)
  else if col = "state" then some (·.state)
  else none

/-- Total disease-flag lookup; only applied after validation has pinned the
name to one of the four flag columns, so the default is unreachable there. -/
def diseaseFlag (col : String) (p : PopRow) : Bool :=
  match diseaseFlag? col with
  | some f => f p
  | none => false

/-- Error taxonomy. `invalidInput dim v` models the
`AssertionError("<dim> '<v>' is not allowed...")` raised by validation
(the `except` blocks re-raise it wrapped in `Exception("Error: ...")`,
which preserves both components; the wrapper text is not modelled).
`queryError` models a `QueryExecutionError` surfaced by the engine, and
`nameError` a Python `NameError` (reference to an unbound local). -/
inductive Err where
  | invalidInput (dim : String) (value : String)
  | queryError (msg : String)
  | nameError (name : String)
deriving DecidableEq

/-- Structured record of one SQL statement handed to `execute_query`:
one constructor per query template in the source, carrying exactly the
values the Python code interpolates into the template. Every constructor
is a `SELECT` statement. -/
inductive SqlQuery where
  | diseaseCountValidated (table col category : String)
  | diseaseCountRaw (table col category : String)
  | maxRatioQ (t1 t2 disease state : String)
  | carrierAvgs (t1 t2 state : String)
  | avgDeathAge (table d1 d2 : String)
  | highLow (t1 t2 race : String)
  | maxTotalCost (t1 t2 state status : String)
  | hmoGt (t1 t2 state disease : String)
  | lifeExpect (table state : String)
  | claimsDev (t1 t2 state : String)
  | statMean (t1 t2 sex : String)
  | statMedian (t1 t2 sex : String)
  | statSd (t1 t2 sex : String)
deriving DecidableEq

/-- Every statement any metric ever executes is a `SELECT`, which leaves
the database unchanged (spec: the engine is an opaque, read-only executor
for these queries). -/
def applySql (db : Db) (_q : SqlQuery) : Db := db

/-- Shaped output of `disease_count_by_race` on the `cmspop` branch:
the Python dict `{col + '_count': [{'race': row[0], 'count': row[1]}, ...]}`
(the `'race'` label is hard-coded even though the query groups by the
`category` argument). -/
structure RaceCount where
  race : String
  count : Nat
deriving DecidableEq

structure DiseaseCounts where
  key : String
  rows : List RaceCount
deriving DecidableEq

/-- Evaluation of the query of `disease_count_by_race`:
`SELECT <category>, COUNT(<col>)::integer FROM <rows> WHERE <col> = 't'
GROUP BY <category>`.  `COUNT(col)` counts the rows of the group (no
`NULL`s exist in the boolean flag columns).  Grouping keys appear in
first-occurrence order.  An unresolvable column or category name makes the
engine reject the query. -/
def diseaseCountEval (rows : List PopRow) (col category : String) :
    Except Err (List (String × Nat)) :=
  match diseaseFlag? col, stringCol? category with
  | some f, some g =>
    let hits := rows.filter f
    let keys := (hits.map g).dedup
    .ok (keys.map fun k => (k, (hits.filter fun p => g p = k).length))
  | _, _ => .error (.queryError "column could not be resolved")

/-- Table resolution for the raw branch of `disease_count_by_race`:
`cmspop` itself, or any other population-shaped table in the database. -/
def resolveTable (db : Db) (table : String) : Except Err (List PopRow) :=
  if table = "cmspop" then .ok db.cmspop
  else
    match db.other.find? (fun t => t.1 = table) with
    | some t => .ok t.2
    | none => .error (.queryError "relation does not exist")

/-- `disease_count_by_race(col, ..., table_name, category)`.

On `table_name == 'cmspop'` the raw `col` is validated against the disease
tuple (failure raises before `cursor_connect`, so no query is built or
executed); the query then interpolates the cleaned disease and the raw
category, and the result is shaped under the key `col + '_count'`.

On any other `table_name` there is NO validation at all: the query is
built with the RAW `col` and executed, the `disease_counts` structure is
assembled and then thrown away, because the final `return counts` refers
to an unbound name — a Python `NameError` (the branch is outside the
`try`, so a failing query surfaces as a query error instead). -/
def disease_count_by_race (col table_name category : String) (db : Db) :
    Except Err DiseaseCounts × List SqlQuery :=
  if table_name = "cmspop" then
    let cleaned_disease := cleanWord col
    if col ∉ diseasesList then
      (.error (.invalidInput "Disease" cleaned_disease), [])
    else
      let q := SqlQuery.diseaseCountValidated table_name cleaned_disease category
      match diseaseCountEval db.cmspop cleaned_disease category with
      | .ok rws => (.ok ⟨col ++ "_count", rws.map fun r => ⟨r.1, r.2⟩⟩, [q])
      | .error e => (.error e, [q])
  else
    let q := SqlQuery.diseaseCountRaw table_name col category
    match resolveTable db table_name with
    | .ok rows =>
      match diseaseCountEval rows col category with
      | .ok _ => (.error (.nameError "counts"), [q])
      | .error e => (.error e, [q])
    | .error e => (.error e, [q])

/-- One joined, filtered row of the `max_carrier_bene_ratio` sub-query
`sq1`: the ratio column is `carrier_reimb::float / bene_resp::float`. -/
structure RatioRow where
  id : Nat
  sex : String
  state : String
  rval : ℚ
deriving DecidableEq

/-- Shaped row of `disease_max_carrier_bene_ratio_by_state_sex`
(Python keys `'id'`, `'sex'`, `'state'`, the ratio under a slash-named key). -/
structure RatiosOut where
  rows : List RatioRow
deriving DecidableEq

/-- Rows of sub-query `sq1`/`sq2` of the max-ratio query: population LEFT
JOIN claims, `WHERE bene_resp > 0 AND <disease> = 't' AND state = <state>`
(a row with no claim match has `NULL bene_resp` and is dropped by the
`bene_resp > 0` condition). -/
def dmRows (db : Db) (disease state : String) : List RatioRow :=
  (popJoinClaims db).filterMap fun pc =>
    match pc.2 with
    | some c =>
      if c.bene_resp > 0 ∧ diseaseFlag disease pc.1 ∧ pc.1.state = state then
        some ⟨pc.1.id, pc.1.sex, pc.1.state, c.carrier_reimb / c.bene_resp⟩
      else none
    | none => none

/-- Outer query of `disease_max_carrier_bene_ratio_by_state_sex`:
keep the `sq1` rows whose ratio equals `MAX` over `sq2` (same rows),
then `GROUP BY id, sex, state` with `MAX(ratio)` per group (the order of
`ORDER BY carrier_bene_ratio DESC` is immaterial: every surviving row
carries the same, maximal ratio). -/
def dmEval (db : Db) (disease state : String) : List RatioRow :=
  let rows := dmRows db disease state
  match listMax (rows.map (·.rval)) with
  | none => []
  | some m =>
    let tied := rows.filter fun r => r.rval = m
    ((tied.map fun r => (r.id, r.sex, r.state)).dedup).map fun k => ⟨k.1, k.2.1, k.2.2, m⟩

/-- `disease_max_carrier_bene_ratio_by_state_sex(disease, state, ...)`.

Validation checks the RAW `disease` and the RAW `state` against the
allow-lists, and the two table names.  The cleaning step quotes the
uppercased state — except for `Othr`, which is interpolated UNQUOTED, so
the SQL engine reads it as a (nonexistent) column reference and rejects
the query. -/
def disease_max_carrier_bene_ratio_by_state_sex
    (disease state table_name1 table_name2 : String) (db : Db) :
    Except Err RatiosOut × List SqlQuery :=
  let cleaned_disease := cleanWord disease
  if disease ∉ diseasesList then
    (.error (.invalidInput "Disease" cleaned_disease), [])
  else if state ∉ statesList then
    (.error (.invalidInput "State" (cleanState state)), [])
  else if table_name1 ≠ "cmspop" then
    (.error (.invalidInput "Table" table_name1), [])
  else if table_name2 ≠ "cmsclaims" then
    (.error (.invalidInput "Table" table_name2), [])
  else
    let q := SqlQuery.maxRatioQ table_name1 table_name2 cleaned_disease state
    if state = "Othr" then
      (.error (.queryError "column othr does not exist"), [q])
    else
      (.ok ⟨dmEval db cleaned_disease (upperAscii (cleanWord state))⟩, [q])

/-- Shaped row of `carrier_reimb_avgs_select_state`: the Python dict sets
`'avg_hmo_mo': row[2]` — the same tuple slot as `'avg_bene_resp'` — so the
fourth query column never reaches the output. -/
structure StateAvgRow where
  state : String
  avg_carrier_reimb : Option ℚ
  avg_bene_resp : Option ℚ
  avg_hmo_mo : Option ℚ
deriving DecidableEq

structure StateAvgsOut where
  rows : List StateAvgRow
deriving DecidableEq

/-- Query of `carrier_reimb_avgs_select_state`: population LEFT JOIN
claims, `WHERE state = <state>`, `GROUP BY state`, with
`ROUND(AVG(...)::numeric, 2)` of `carrier_reimb`, `bene_resp`, `hmo_mo`
(`AVG` ignores the `NULL`s of unmatched join rows; it is `NULL` when every
value of the group is `NULL`).  Result tuples are
`(state, avg_carrier_reimb, avg_bene_resp, avg_hmo_mo)`. -/
def carrierAvgsEval (db : Db) (state : String) :
    List (String × Option ℚ × Option ℚ × Option ℚ) :=
  let rows := (popJoinClaims db).filter fun pc => pc.1.state = state
  let keys := (rows.map fun pc => pc.1.state).dedup
  keys.map fun k =>
    let grp := rows.filter fun pc => pc.1.state = k
    (k,
     (avgQ (grp.filterMap fun pc => pc.2.map (·.carrier_reimb))).map roundHA,
     (avgQ (grp.filterMap fun pc => pc.2.map (·.bene_resp))).map roundHA,
     (avgQ (grp.filterMap fun pc => pc.2.map (·.hmo_mo))).map roundHA)

/-- `carrier_reimb_avgs_select_state(state, ...)`: validates the CLEANED
state, the table names, then shapes the rows — assigning `row[2]` to both
the `avg_bene_resp` and the `avg_hmo_mo` output fields, as the source does. -/
def carrier_reimb_avgs_select_state (state table_name1 table_name2 : String) (db : Db) :
    Except Err StateAvgsOut × List SqlQuery :=
  let cleaned_state := cleanState state
  if cleaned_state ∉ statesList then
    (.error (.invalidInput "State" cleaned_state), [])
  else if table_name1 ≠ "cmspop" then
    (.error (.invalidInput "Table" table_name1), [])
  else if table_name2 ≠ "cmsclaims" then
    (.error (.invalidInput "Table" table_name2), [])
  else
    let q := SqlQuery.carrierAvgs table_name1 table_name2 cleaned_state
    let rws := carrierAvgsEval db cleaned_state
    (.ok ⟨rws.map fun r => ⟨r.1, r.2.1, r.2.2.1, r.2.2.1⟩⟩, [q])

/-- Shaped row of `avg_death_age_for_concurrent_disease_by_sex`. -/
structure DeathAgeRow where
  sex : String
  avg_age_of_death : ℤ
deriving DecidableEq

structure DeathAgesOut where
  rows : List DeathAgeRow
deriving DecidableEq

/-- Query of `avg_death_age_for_concurrent_disease_by_sex`:
`SELECT sex, FLOOR(avg(age)::integer) FROM (SELECT sex,
FLOOR((dod-dob)/365) AS age FROM cmspop WHERE dod IS NOT NULL AND
<d1> = 't' AND <d2> = 't') GROUP BY sex` — the `::integer` cast rounds the
average before the (then vacuous) `FLOOR`. -/
def avgDeathAgeEval (db : Db) (d1 d2 : String) : List (String × ℤ) :=
  let base := db.cmspop.filterMap fun p =>
    match p.dod with
    | some d =>
      if diseaseFlag d1 p ∧ diseaseFlag d2 p then
        some (p.sex, Int.tdiv (d - p.dob) 365)
      else none
    | none => none
  let keys := (base.map (·.1)).dedup
  keys.filterMap fun k =>
    (avgQ ((base.filter fun r => r.1 = k).map fun r => (r.2 : ℚ))).map fun a =>
      (k, qRoundInt a)

/-- `avg_death_age_for_concurrent_disease_by_sex(disease1, disease2, ...)`.

Faithful to the source slip on line 318: BOTH cleaned values are computed
from `disease1` (`cleaned_disease2 = re.sub('\W+', '', disease1)`), so
`disease2` is neither validated nor interpolated — the query filters on
`disease1` twice. -/
def avg_death_age_for_concurrent_disease_by_sex
    (disease1 disease2 table_name : String) (db : Db) :
    Except Err DeathAgesOut × List SqlQuery :=
  let cleaned_disease1 := cleanWord disease1
  let cleaned_disease2 := cleanWord disease1
  let _unused := disease2
  if cleaned_disease1 ∉ diseasesList then
    (.error (.invalidInput "Disease" cleaned_disease1), [])
  else if cleaned_disease2 ∉ diseasesList then
    (.error (.invalidInput "Disease" cleaned_disease2), [])
  else if table_name ≠ "cmspop" then
    (.error (.invalidInput "Table" table_name), [])
  else
    let q := SqlQuery.avgDeathAge table_name cleaned_disease1 cleaned_disease2
    (.ok ⟨(avgDeathAgeEval db cleaned_disease1 cleaned_disease2).map fun r => ⟨r.1, r.2⟩⟩, [q])

/-- Shaped row of `high_and_low_carrier_reimb_state`
(keys `'state'`, `'race'`, `'carrier_reimb'`). -/
structure ReimbRow where
  state : String
  race : String
  carrier_reimb : ℚ
deriving DecidableEq

structure ReimbOut where
  rows : List ReimbRow
deriving DecidableEq

/-- Grouped totals of the `high_and_low_carrier_reimb_state` query:
claims LEFT JOIN population `ON id`, `WHERE race = <race>` (join rows with
no population match have `NULL race` and are dropped), `GROUP BY state,
race` with `SUM(carrier_reimb)` over the claims side.  The `MIN`/`MAX`
sub-queries `sq2`/`sq3` recompute exactly these rows (their aliases swap
`LHS`/`RHS` but both sum the claims column and group by the population
columns). -/
def hlGroups (db : Db) (race : String) : List ReimbRow :=
  let rows := (claimsJoinPop db).filterMap fun cp =>
    match cp.2 with
    | some p => if p.race = race then some (cp.1, p) else none
    | none => none
  let keys := (rows.map fun cp => (cp.2.state, cp.2.race)).dedup
  keys.map fun k =>
    ⟨k.1, k.2, ((rows.filter fun cp => cp.2.state = k.1 ∧ cp.2.race = k.2).map
      fun cp => cp.1.carrier_reimb).sum⟩

/-- Outer query: keep the grouped rows whose total equals the `MIN` or the
`MAX` of all totals, `ORDER BY total_carrier_reimb ASC`. -/
def hlEval (db : Db) (race : String) : List ReimbRow :=
  let grps := hlGroups db race
  let totals := grps.map (·.carrier_reimb)
  let keep := grps.filter fun g =>
    listMin totals = some g.carrier_reimb ∨ listMax totals = some g.carrier_reimb
  insertionSort (fun a b => a.carrier_reimb ≤ b.carrier_reimb) keep

/-- `high_and_low_carrier_reimb_state(race, ...)`: validates the CLEANED
race and the table names, then returns all min- and max-tied state totals. -/
def high_and_low_carrier_reimb_state (race table_name1 table_name2 : String) (db : Db) :
    Except Err ReimbOut × List SqlQuery :=
  let cleaned_race := cleanWord race
  if cleaned_race ∉ racesList then
    (.error (.invalidInput "Race" cleaned_race), [])
  else if table_name1 ≠ "cmspop" then
    (.error (.invalidInput "Table" table_name1), [])
  else if table_name2 ≠ "cmsclaims" then
    (.error (.invalidInput "Table" table_name2), [])
  else
    let q := SqlQuery.highLow table_name1 table_name2 cleaned_race
    (.ok ⟨hlEval db cleaned_race⟩, [q])

/-- Derived status column of `max_total_cost_state_status`:
`CASE WHEN dod IS NOT NULL THEN 'dead' WHEN dod IS NULL THEN 'alive' END`. -/
def statusOf (p : PopRow) : String :=
  match p.dod with
  | some _ => "dead"
  | none => "alive"

/-- Shaped row of `max_total_cost_state_status`
(keys `'id'`, `'state'`, `'status'`, `'total_cost'`). -/
structure CostRow where
  id : Nat
  state : String
  status : String
  total_cost : ℚ
deriving DecidableEq

structure CostOut where
  rows : List CostRow
deriving DecidableEq

/-- Query of `max_total_cost_state_status`: population (with derived
status) LEFT JOIN claims, `WHERE state = <state> AND status = <status>`;
`total_cost = carrier_reimb + bene_resp` (`NULL` without a claim match);
keep the rows whose `total_cost` equals `MAX(total_cost)` of the same
sub-query (`MAX` ignores `NULL`s; `NULL = max` keeps no row). -/
def mtcEval (db : Db) (state status : String) : List CostRow :=
  let rows := (popJoinClaims db).filter fun pc =>
    pc.1.state = state ∧ statusOf pc.1 = status
  let totals := rows.filterMap fun pc => pc.2.map fun c => c.carrier_reimb + c.bene_resp
  match listMax totals with
  | none => []
  | some m =>
    rows.filterMap fun pc =>
      match pc.2 with
      | some c =>
        if c.carrier_reimb + c.bene_resp = m then
          some ⟨pc.1.id, pc.1.state, statusOf pc.1, c.carrier_reimb + c.bene_resp⟩
        else none
      | none => none

/-- `max_total_cost_state_status(state, status, ...)`: validates the
CLEANED state and status — both failure messages use the (wrong)
dimension word `Race`, exactly as in the source. -/
def max_total_cost_state_status (state status table_name1 table_name2 : String) (db : Db) :
    Except Err CostOut × List SqlQuery :=
  let cleaned_status := cleanWord status
  let cleaned_state := cleanState state
  if cleaned_state ∉ statesList then
    (.error (.invalidInput "Race" cleaned_state), [])
  else if cleaned_status ∉ statusesList then
    (.error (.invalidInput "Race" cleaned_status), [])
  else if table_name1 ≠ "cmspop" then
    (.error (.invalidInput "Table" table_name1), [])
  else if table_name2 ≠ "cmsclaims" then
    (.error (.invalidInput "Table" table_name2), [])
  else
    let q := SqlQuery.maxTotalCost table_name1 table_name2 cleaned_state cleaned_status
    (.ok ⟨mtcEval db cleaned_state cleaned_status⟩, [q])

/-- Shaped row of `hmo_mo_gt_average_for_state_disease`: the third Python
key is the cleaned disease name itself (a dynamic dict key), modelled as
the pair `flagKey`/`flagVal`. -/
structure HmoRow where
  id : Nat
  state : String
  flagKey : String
  flagVal : Bool
  hmo_mo : ℚ
deriving DecidableEq

structure HmoOut where
  rows : List HmoRow
deriving DecidableEq

/-- Query of `hmo_mo_gt_average_for_state_disease`: population LEFT JOIN
claims, `WHERE state = <state> AND <disease> = 't'`; keep rows with
`hmo_mo > AVG(hmo_mo)` of the same filtered set (`NULL hmo_mo` rows and a
`NULL` average keep nothing). -/
def hmoGtEval (db : Db) (state disease : String) : List HmoRow :=
  let rows := (popJoinClaims db).filter fun pc =>
    pc.1.state = state ∧ diseaseFlag disease pc.1
  match avgQ (rows.filterMap fun pc => pc.2.map (·.hmo_mo)) with
  | none => []
  | some a =>
    rows.filterMap fun pc =>
      match pc.2 with
      | some c =>
        if c.hmo_mo > a then
          some ⟨pc.1.id, pc.1.state, disease, diseaseFlag disease pc.1, c.hmo_mo⟩
        else none
      | none => none

/-- `hmo_mo_gt_average_for_state_disease(state, disease, ...)`: validates
the CLEANED state then the CLEANED disease — both failure messages use the
(wrong) dimension word `Race`, exactly as in the source. -/
def hmo_mo_gt_average_for_state_disease (state disease table_name1 table_name2 : String) (db : Db) :
    Except Err HmoOut × List SqlQuery :=
  let cleaned_state := cleanState state
  let cleaned_disease := cleanWord disease
  if cleaned_state ∉ statesList then
    (.error (.invalidInput "Race" cleaned_state), [])
  else if cleaned_disease ∉ diseasesList then
    (.error (.invalidInput "Race" cleaned_disease), [])
  else if table_name1 ≠ "cmspop" then
    (.error (.invalidInput "Table" table_name1), [])
  else if table_name2 ≠ "cmsclaims" then
    (.error (.invalidInput "Table" table_name2), [])
  else
    let q := SqlQuery.hmoGt table_name1 table_name2 cleaned_state cleaned_disease
    (.ok ⟨hmoGtEval db cleaned_state cleaned_disease⟩, [q])

/-- Age at death in whole years: `(dod - dob)/365` with Postgres integer
division (truncation); only applied to rows whose `dod` is non-null. -/
def ageOf (p : PopRow) : ℤ :=
  match p.dod with
  | some d => Int.tdiv (d - p.dob) 365
  | none => 0

/-- Shaped row of `state_avg_life_expectancies_by_sex`: the healthy cohort
is the join's left-most table, so its average is always present in a
returned row, while the four single-disease cohorts are LEFT-JOINed and may
be `NULL`. -/
structure LifeRow where
  state : String
  sex : String
  healthy : ℤ
  alz : Option ℤ
  hf : Option ℤ
  dep : Option ℤ
  cancer : Option ℤ
deriving DecidableEq

structure LifeOut where
  rows : List LifeRow
deriving DecidableEq

/-- One cohort sub-query of the life-expectancy metric:
`SELECT state, sex, FLOOR(avg(age))::integer FROM (SELECT state, sex,
(dod-dob)/365 AS age FROM cmspop WHERE dod IS NOT NULL AND <flags>)
GROUP BY sex, state`. -/
def cohortAvgs (db : Db) (pred : PopRow → Bool) : List (String × String × ℤ) :=
  let base := db.cmspop.filterMap fun p =>
    match p.dod with
    | some _ => if pred p then some (p.state, p.sex, ageOf p) else none
    | none => none
  let keys := (base.map fun r => (r.1, r.2.1)).dedup
  keys.filterMap fun k =>
    (avgQ ((base.filter fun r => r.1 = k.1 ∧ r.2.1 = k.2).map fun r => (r.2.2 : ℚ))).map
      fun a => (k.1, k.2, ⌊a⌋)

/-- Lookup of a LEFT-JOINed cohort average by `(state, sex)`. -/
def lookupCohort (l : List (String × String × ℤ)) (st sx : String) : Option ℤ :=
  (l.find? fun r => r.1 = st ∧ r.2.1 = sx).map (·.2.2)

/-- The five cohort filters of `state_avg_life_expectancies_by_sex`:
healthy = all four flags false; each disease cohort = that flag true and
the other three false. -/
def healthyPred (p : PopRow) : Bool :=
  !p.alz_rel_sen && !p.cancer && !p.heart_fail && !p.depression

def alzPred (p : PopRow) : Bool :=
  p.alz_rel_sen && !p.cancer && !p.heart_fail && !p.depression

def hfPred (p : PopRow) : Bool :=
  p.heart_fail && !p.alz_rel_sen && !p.cancer && !p.depression

def depPred (p : PopRow) : Bool :=
  p.depression && !p.alz_rel_sen && !p.cancer && !p.heart_fail

def cancerPred (p : PopRow) : Bool :=
  p.cancer && !p.alz_rel_sen && !p.heart_fail && !p.depression

/-- Chained LEFT JOINs of the five cohort sub-queries on `(state, sex)`,
then `WHERE state = <state>` on the healthy (left-most) side. -/
def lifeEval (db : Db) (state : String) : List LifeRow :=
  (cohortAvgs db healthyPred).filterMap fun r =>
    if r.1 = state then
      some ⟨r.1, r.2.1, r.2.2,
        lookupCohort (cohortAvgs db alzPred) r.1 r.2.1,
        lookupCohort (cohortAvgs db hfPred) r.1 r.2.1,
        lookupCohort (cohortAvgs db depPred) r.1 r.2.1,
        lookupCohort (cohortAvgs db cancerPred) r.1 r.2.1⟩
    else none

/-- `state_avg_life_expectancies_by_sex(state, ...)`: validates the CLEANED
state.  The table-name failure branch formats the message with the
undefined name `table_name1` (the parameter is `table_name`), so that
branch raises a Python `NameError` instead of the intended message. -/
def state_avg_life_expectancies_by_sex (state table_name : String) (db : Db) :
    Except Err LifeOut × List SqlQuery :=
  let cleaned_state := cleanState state
  if cleaned_state ∉ statesList then
    (.error (.invalidInput "State" cleaned_state), [])
  else if table_name ≠ "cmspop" then
    (.error (.nameError "table_name1"), [])
  else
    let q := SqlQuery.lifeExpect table_name cleaned_state
    (.ok ⟨lifeEval db cleaned_state⟩, [q])

/-- Shaped row of `claims_deviations_by_state`
(keys `'id'`, `'state'`, and three per-column deviations from the
statewide mean, rounded to 2 decimals; `NULL` without a claim match). -/
structure DevRow where
  id : Nat
  state : String
  carrier_dev : Option ℚ
  bene_dev : Option ℚ
  hmo_dev : Option ℚ
deriving DecidableEq

structure DevOut where
  rows : List DevRow
deriving DecidableEq

/-- Comparison used by `ORDER BY carrier_deviation` (ascending, `NULL`s
last, Postgres default). -/
def optLeQ : Option ℚ → Option ℚ → Bool
  | some a, some b => a ≤ b
  | some _, none => true
  | none, some _ => false
  | none, none => true

/-- Query of `claims_deviations_by_state`: population LEFT JOIN claims,
`WHERE state = <state>`; each deviation is
`ROUND(col - (SELECT AVG(col) FROM <same join> WHERE state = <state>), 2)`. -/
def devEval (db : Db) (state : String) : List DevRow :=
  let rows := (popJoinClaims db).filter fun pc => pc.1.state = state
  let avgC := avgQ (rows.filterMap fun pc => pc.2.map (·.carrier_reimb))
  let avgB := avgQ (rows.filterMap fun pc => pc.2.map (·.bene_resp))
  let avgH := avgQ (rows.filterMap fun pc => pc.2.map (·.hmo_mo))
  let dev := fun (v : Option ℚ) (a : Option ℚ) =>
    match v, a with
    | some x, some y => some (roundHA (x - y))
    | _, _ => none
  let shaped := rows.map fun pc =>
    DevRow.mk pc.1.id pc.1.state
      (dev (pc.2.map (·.carrier_reimb)) avgC)
      (dev (pc.2.map (·.bene_resp)) avgB)
      (dev (pc.2.map (·.hmo_mo)) avgH)
  insertionSort (fun a b => optLeQ a.carrier_dev b.carrier_dev) shaped

/-- `claims_deviations_by_state(state, ...)`: validates the CLEANED state —
with the (wrong) dimension word `Race`, exactly as in the source — and
`table_name1` only (`table_name2` is never checked). -/
def claims_deviations_by_state (state table_name1 table_name2 : String) (db : Db) :
    Except Err DevOut × List SqlQuery :=
  let cleaned_state := cleanState state
  if cleaned_state ∉ statesList then
    (.error (.invalidInput "Race" cleaned_state), [])
  else if table_name1 ≠ "cmspop" then
    (.error (.invalidInput "Table" table_name1), [])
  else
    let q := SqlQuery.claimsDev table_name1 table_name2 cleaned_state
    if table_name2 ≠ "cmsclaims" then
      (.error (.queryError "relation does not exist"), [q])
    else
      (.ok ⟨devEval db cleaned_state⟩, [q])

/-- The join rows used by `stat_select_for_sex`: the `mean` query, the
`median` query and the age part of the `sd` query restrict the population
side to `dod IS NOT NULL` before joining; the monetary/month parts of the
`sd` query do NOT. -/
def dodSexRows (db : Db) (sex : String) : List (PopRow × Option ClaimRow) :=
  (popJoinClaims ⟨db.cmspop.filter (fun p => p.dod.isSome), db.cmsclaims, db.other⟩).filter
    fun pc => pc.1.sex = sex

def sexRows (db : Db) (sex : String) : List (PopRow × Option ClaimRow) :=
  (popJoinClaims db).filter fun pc => pc.1.sex = sex

/-- Shaped row of the `mean` branch of `stat_select_for_sex`:
`(sex, FLOOR(avg(age)), ROUND(avg(carrier_reimb), 2),
ROUND(avg(bene_resp), 2), ROUND(avg(hmo_mo), 2))`. -/
structure MeanRow where
  sex : String
  age : ℤ
  avg_carrier_resp : Option ℚ
  avg_bene_resp : Option ℚ
  avg_hmo_mo : Option ℚ
deriving DecidableEq

/-- Shaped row of the `median` branch (each median by the row-number
window; `FLOOR` on the age median, `ROUND(..., 2)` on the others). -/
structure MedianRow where
  sex : String
  age : Option ℚ
  median_carrier_reimb : Option ℚ
  median_bene_resp : Option ℚ
  median_hmo_mo : Option ℚ
deriving DecidableEq

/-- Shaped row of the `sd` branch (population standard deviations after
`SQRT`, hence real-valued). -/
structure SdRow where
  sex : String
  age_sd : Option ℝ
  carrier_sd : Option ℝ
  bene_sd : Option ℝ
  hmo_mo_sd : Option ℝ

/-- The three shapes `stat_select_for_sex` can return, one per statistic
kind (the Python code builds a differently-keyed dict in each case). -/
inductive StatOut where
  | meanRows (rows : List MeanRow)
  | medianRows (rows : List MedianRow)
  | sdRows (rows : List SdRow)

/-- One median sub-query over a column: rank the values ascending by
`row_number()` (`NULL`s last), keep the rows whose rank lies between
`ct/2.0` and `ct/2.0 + 1` where `ct` is the total row count, and average
them (`AVG` ignores `NULL`s and is `NULL` when nothing remains). -/
def windowAvgQ (vals : List (Option ℚ)) : Option ℚ :=
  let sorted := insertionSort optLeQ vals
  let ct := sorted.length
  avgQ (sorted.enum.filterMap fun ia =>
    if ct ≤ 2 * (ia.1 + 1) ∧ 2 * (ia.1 + 1) ≤ ct + 2 then ia.2 else none)

/-- One standard-deviation sub-query:
`ROUND(SQRT(SUM(ROUND(v - (SELECT AVG(m) ...), 2)::float ^ 2)
/ COUNT(sex))::numeric, 2)`.  `vals` is the column being summed over and
`meanVals` the column averaged in the scalar sub-select — the source's
fourth sub-query passes `bene_resp` as `vals` and `hmo_mo` as `meanVals`.
`SUM` skips `NULL` terms but `COUNT(sex)` counts every row; the result is
`NULL` when the scalar average or every summand is `NULL`. -/
noncomputable def sdOf (vals meanVals : List (Option ℚ)) : Option ℝ :=
  match avgQ (meanVals.filterMap id) with
  | none => none
  | some mu =>
    match vals.filterMap id with
    | [] => none
    | present =>
      some (roundHAR (Real.sqrt
        ((((present.map fun v => roundHA (v - mu) ^ 2).sum / (vals.length : ℚ) : ℚ) : ℝ))))

/-- The `mean` query of `stat_select_for_sex` (population rows restricted
to `dod IS NOT NULL`, joined to claims, `WHERE sex = <sex>`,
`GROUP BY sex`). -/
def statMeanEval (db : Db) (sex : String) : List MeanRow :=
  let rows := dodSexRows db sex
  match avgQ (rows.map fun pc => (ageOf pc.1 : ℚ)) with
  | none => []
  | some a =>
    [⟨sex, ⌊a⌋,
      (avgQ (rows.filterMap fun pc => pc.2.map (·.carrier_reimb))).map roundHA,
      (avgQ (rows.filterMap fun pc => pc.2.map (·.bene_resp))).map roundHA,
      (avgQ (rows.filterMap fun pc => pc.2.map (·.hmo_mo))).map roundHA⟩]

/-- The `median` query: four windowed medians over the same `dod IS NOT
NULL`, sex-filtered join, CROSS JOINed; the fourth sub-query has a
`GROUP BY sex` and so yields no row — emptying the whole product — when
the filtered join is empty. -/
def statMedianEval (db : Db) (sex : String) : List MedianRow :=
  let rows := dodSexRows db sex
  if rows.isEmpty then []
  else
    [⟨sex,
      (windowAvgQ (rows.map fun pc => some (ageOf pc.1 : ℚ))).map fun m => ((⌊m⌋ : ℤ) : ℚ),
      (windowAvgQ (rows.map fun pc => pc.2.map (·.carrier_reimb))).map roundHA,
      (windowAvgQ (rows.map fun pc => pc.2.map (·.bene_resp))).map roundHA,
      (windowAvgQ (rows.map fun pc => pc.2.map (·.hmo_mo))).map roundHA⟩]

/-- The `sd` query: the age part runs over the `dod IS NOT NULL` join, the
three monetary/month parts over the UNFILTERED join (no death-date
restriction); the fourth part sums `bene_resp` deviations from the
`hmo_mo` average (the source's line-930 slip), under the alias
`hmo_mo_sd`. -/
noncomputable def statSdEval (db : Db) (sex : String) : List SdRow :=
  let rowsA := dodSexRows db sex
  let rowsB := sexRows db sex
  if rowsA.isEmpty ∨ rowsB.isEmpty then []
  else
    let ages := rowsA.map fun pc => some (ageOf pc.1 : ℚ)
    let carriers := rowsB.map fun pc => pc.2.map (·.carrier_reimb)
    let benes := rowsB.map fun pc => pc.2.map (·.bene_resp)
    let hmos := rowsB.map fun pc => pc.2.map (·.hmo_mo)
    [⟨sex, sdOf ages ages, sdOf carriers carriers, sdOf benes benes, sdOf benes hmos⟩]

/-- `stat_select_for_sex(stat, sex, ...)`: validates the CLEANED statistic
kind and sex, then branches on the RAW `stat` string; when the raw value
matches none of `'mean' | 'median' | 'sd'` (yet its cleaned form passed
validation) no branch assigns `query`, and `execute_query(cur, query)`
raises a Python `NameError` before any query reaches the database. -/
noncomputable def stat_select_for_sex (stat sex table_name1 table_name2 : String) (db : Db) :
    Except Err StatOut × List SqlQuery :=
  let cleaned_stat := cleanWord stat
  let cleaned_sex := cleanWord sex
  if cleaned_stat ∉ statsList then
    (.error (.invalidInput "Statistic" cleaned_stat), [])
  else if cleaned_sex ∉ sexesList then
    (.error (.invalidInput "Sex" cleaned_sex), [])
  else if table_name1 ≠ "cmspop" then
    (.error (.invalidInput "Table" table_name1), [])
  else if table_name2 ≠ "cmsclaims" then
    (.error (.invalidInput "Table" table_name2), [])
  else if stat = "mean" then
    (.ok (.meanRows (statMeanEval db cleaned_sex)), [.statMean table_name1 table_name2 cleaned_sex])
  else if stat = "median" then
    (.ok (.medianRows (statMedianEval db cleaned_sex)), [.statMedian table_name1 table_name2 cleaned_sex])
  else if stat = "sd" then
    (.ok (.sdRows (statSdEval db cleaned_sex)), [.statSd table_name1 table_name2 cleaned_sex])
  else
    (.error (.nameError "query"), [])

/-- Stateful run of a metric: the queries it hands to `execute_query` are
applied to the database in order; the final database is returned next to
the metric's result. -/
def runStateful {α : Type} (m : Db → Except Err α × List SqlQuery) (db : Db) :
    Except Err α × Db :=
  let r := m db
  (r.1, r.2.foldl applySql db)

theorem foldl_applySql (qs : List SqlQuery) (db : Db) : qs.foldl applySql db = db := by
  induction qs with
  | nil => rfl
  | cons q qs ih => simpa [applySql] using ih

/-- Read-only idempotence, for any metric of the embedding: one invocation
leaves the database exactly as it was, and a second invocation on the
resulting database returns the same output. -/
theorem runStateful_pure {α : Type} (m : Db → Except Err α × List SqlQuery) (db : Db) :
    (runStateful m db).2 = db ∧
      (runStateful m (runStateful m db).2).1 = (runStateful m db).1 := by
  constructor
  · simp [runStateful, foldl_applySql]
  · simp [runStateful, foldl_applySql]

/-- Cleaning is the identity on every member of the state allow-list
(all entries are alphanumeric, and already uppercase apart from the
sentinel `Othr`, which `cleanState` passes through unchanged). -/
theorem cleanState_of_mem (s : String) (h : s ∈ statesList) : cleanState s = s := by
  fin_cases h <;> rfl

/-- A value whose cleaned form is outside the allow-list is itself outside
the allow-list. -/
theorem raw_notMem_of_cleanState_notMem (s : String) (h : cleanState s ∉ statesList) :
    s ∉ statesList := fun hs => h (by rw [cleanState_of_mem s hs]; exact hs)

/-- A metric call that was rejected by input validation: the result is an
`InvalidInput` error and the query trace is empty (the database was never
reached). -/
def rejectedBeforeQuery {α : Type} (r : Except Err α × List SqlQuery) : Prop :=
  (∃ dim v, r.1 = .error (.invalidInput dim v)) ∧ r.2 = []

deriving instance DecidableEq for Except

/-- Fixture databases used to settle the claims on concrete inputs. -/
def c1Db : Db := ⟨[], [], [("tbl", [])]⟩

def c2Db : Db :=
  ⟨[⟨1, "white", "male", "WA", 0, some 3650, false, false, false, true⟩], [], []⟩

def c4Db : Db :=
  ⟨[⟨1, "white", "male", "WA", 0, some 3650, false, false, false, false⟩],
   [⟨1, 3, 10, 20⟩], []⟩

def c5Db : Db :=
  ⟨[⟨1, "white", "male", "CA", 0, none, false, false, false, false⟩],
   [⟨1, 10, 20, 30⟩], []⟩

def c7Db : Db :=
  ⟨[⟨1, "white", "male", "WA", 0, none, false, false, false, true⟩,
    ⟨2, "white", "female", "WA", 0, none, false, false, false, true⟩],
   [⟨1, 4, 2, 0⟩, ⟨2, 4, 2, 0⟩], []⟩

def c7RaceDb : Db :=
  ⟨[⟨1, "black", "male", "AK", 0, none, false, false, false, false⟩,
    ⟨2, "black", "male", "AL", 0, none, false, false, false, false⟩,
    ⟨3, "black", "male", "AZ", 0, none, false, false, false, false⟩],
   [⟨1, 50, 0, 0⟩, ⟨2, 50, 0, 0⟩, ⟨3, 200, 0, 0⟩], []⟩

def c7OthrDb : Db :=
  ⟨[⟨1, "white", "male", "Othr", 0, none, false, false, false, true⟩],
   [⟨1, 4, 2, 0⟩], []⟩

def c8OddDb : Db :=
  ⟨[⟨1, "white", "male", "WA", 0, some 3650, false, false, false, false⟩,
    ⟨2, "white", "male", "WA", 0, some 7300, false, false, false, false⟩,
    ⟨3, "white", "male", "WA", 0, some 10950, false, false, false, false⟩],
   [⟨1, 1, 1, 1⟩, ⟨2, 2, 2, 2⟩, ⟨3, 3, 3, 3⟩], []⟩

def c8EvenDb : Db :=
  ⟨[⟨1, "white", "male", "WA", 0, some 3650, false, false, false, false⟩,
    ⟨2, "white", "male", "WA", 0, some 7300, false, false, false, false⟩,
    ⟨3, "white", "male", "WA", 0, some 10950, false, false, false, false⟩,
    ⟨4, "white", "male", "WA", 0, some 14600, false, false, false, false⟩],
   [⟨1, 1, 1, 1⟩, ⟨2, 2, 2, 2⟩, ⟨3, 3, 3, 3⟩, ⟨4, 4, 4, 4⟩], []⟩

def c10Db : Db :=
  ⟨[], [], [("tbl", [⟨1, "white", "male", "WA", 0, none, false, false, false, true⟩])]⟩

/-- C1 (amended): with `table_name = 'cmspop'`, every disease name outside
{heart_fail, alz_rel_sen, depression, cancer} makes `disease_count_by_race`
fail with an `InvalidInput` error carrying the cleaned disease, and no
query is constructed or executed. -/
theorem c1_invalid_disease_rejected_on_cmspop (col : String) (h : col ∉ diseasesList)
    (category : String) (db : Db) :
    disease_count_by_race col "cmspop" category db
      = (.error (.invalidInput "Disease" (cleanWord col)), []) := by
  simp [disease_count_by_race, h]

/-- C1 witness: the amended theorem applied at the rejected disease name
`bogus` on the `cmspop` table. -/
theorem c1_witness :
    "bogus" ∉ diseasesList ∧
      disease_count_by_race "bogus" "cmspop" "race" emptyDb
        = (.error (.invalidInput "Disease" "bogus"), []) :=
  ⟨by decide,
   (c1_invalid_disease_rejected_on_cmspop "bogus" (by decide) "race" emptyDb).trans (by decide)⟩

/-- C1 counterexample: with a `table_name` other than `cmspop` the invalid
disease name `bogus` is NOT rejected with `InvalidInput`: a query built
from the raw string is constructed and handed to the engine (which rejects
the unknown column), so the database IS reached. -/
theorem c1_counterexample :
    "bogus" ∉ diseasesList ∧
      disease_count_by_race "bogus" "tbl" "race" c1Db
        = (.error (.queryError "column could not be resolved"),
           [SqlQuery.diseaseCountRaw "tbl" "bogus" "race"]) := by
  constructor
  · decide
  · decide

unseal Rat.mul Rat.inv Rat.add Rat.sub in
/-- C2 (code bug, source line 318): `cleaned_disease2` is computed from
`disease1`, so the query of `avg_death_age_for_concurrent_disease_by_sex`
filters on `disease1` twice and `disease2` is neither validated nor used.
On a fixture with one deceased subject having ONLY cancer, the call with
`(cancer, depression)` returns that subject's age (the both-diseases
cohort demanded by the claim is empty), the interpolated query carries
`cancer` in both filter slots, and the invalid `disease2 = 'zzz'` is
accepted rather than rejected with `InvalidInput`. -/
theorem c2_disease2_ignored :
    avg_death_age_for_concurrent_disease_by_sex "cancer" "depression" "cmspop" c2Db
      = (.ok ⟨[⟨"male", 10⟩]⟩, [SqlQuery.avgDeathAge "cmspop" "cancer" "cancer"]) ∧
    (avg_death_age_for_concurrent_disease_by_sex "cancer" "zzz" "cmspop" c2Db).1
      = .ok ⟨[⟨"male", 10⟩]⟩ := by
  constructor
  · decide
  · decide

/-- C3 (amended): every input string whose CLEANED form (`re.sub('\W+')`
stripping then uppercasing, with `Othr` passed through) is outside the
51-entry enumeration is rejected by every state-scoped metric with an
`InvalidInput` error before any query is issued.
(`disease_max_carrier_bene_ratio_by_state_sex` checks the raw state, which
is outside the enumeration whenever its cleaned form is.) -/
theorem c3_cleaned_state_rejected_before_query (state : String)
    (h : cleanState state ∉ statesList) :
    (∀ t1 t2 db, rejectedBeforeQuery (carrier_reimb_avgs_select_state state t1 t2 db)) ∧
    (∀ status t1 t2 db,
      rejectedBeforeQuery (max_total_cost_state_status state status t1 t2 db)) ∧
    (∀ disease t1 t2 db,
      rejectedBeforeQuery (hmo_mo_gt_average_for_state_disease state disease t1 t2 db)) ∧
    (∀ t db, rejectedBeforeQuery (state_avg_life_expectancies_by_sex state t db)) ∧
    (∀ t1 t2 db, rejectedBeforeQuery (claims_deviations_by_state state t1 t2 db)) ∧
    (∀ disease t1 t2 db,
      rejectedBeforeQuery (disease_max_carrier_bene_ratio_by_state_sex disease state t1 t2 db)) := by
  refine ⟨?_, ?_, ?_, ?_, ?_, ?_⟩
  · intro t1 t2 db
    simp [carrier_reimb_avgs_select_state, h, rejectedBeforeQuery]
  · intro status t1 t2 db
    simp [max_total_cost_state_status, h, rejectedBeforeQuery]
  · intro disease t1 t2 db
    simp [hmo_mo_gt_average_for_state_disease, h, rejectedBeforeQuery]
  · intro t db
    simp [state_avg_life_expectancies_by_sex, h, rejectedBeforeQuery]
  · intro t1 t2 db
    simp [claims_deviations_by_state, h, rejectedBeforeQuery]
  · intro disease t1 t2 db
    have hraw : state ∉ statesList := raw_notMem_of_cleanState_notMem state h
    by_cases hd : disease ∈ diseasesList
    · simp [disease_max_carrier_bene_ratio_by_state_sex, hd, hraw, rejectedBeforeQuery]
    · simp [disease_max_carrier_bene_ratio_by_state_sex, hd, rejectedBeforeQuery]

/-- C3 witness: the amended theorem applied at the rejected state `ZZ`, for
a cleaned-state validator and for the raw-state validator. -/
theorem c3_witness :
    cleanState "ZZ" ∉ statesList ∧
      rejectedBeforeQuery (carrier_reimb_avgs_select_state "ZZ" "cmspop" "cmsclaims" emptyDb) ∧
      rejectedBeforeQuery
        (disease_max_carrier_bene_ratio_by_state_sex "cancer" "ZZ" "cmspop" "cmsclaims" emptyDb) :=
  ⟨by decide,
   (c3_cleaned_state_rejected_before_query "ZZ" (by decide)).1 "cmspop" "cmsclaims" emptyDb,
   (c3_cleaned_state_rejected_before_query "ZZ" (by decide)).2.2.2.2.2 "cancer" "cmspop"
     "cmsclaims" emptyDb⟩

unseal Rat.mul Rat.inv Rat.add Rat.sub in
/-- C3 counterexample: the lowercase input `wa` is NOT a member of the
51-entry enumeration, yet `carrier_reimb_avgs_select_state` does not fail —
cleaning uppercases it to `WA` and a query is issued. -/
theorem c3_counterexample :
    "wa" ∉ statesList ∧
      carrier_reimb_avgs_select_state "wa" "cmspop" "cmsclaims" emptyDb
        = (.ok ⟨[]⟩, [SqlQuery.carrierAvgs "cmspop" "cmsclaims" "WA"]) := by
  constructor
  · decide
  · decide

unseal Rat.mul Rat.inv Rat.add Rat.sub in
/-- C5 (code bug, source line 277): the query of
`carrier_reimb_avgs_select_state` computes three distinct averages
`(10, 20, 30)` on this fixture, but the shaping step assigns tuple slot 2
to BOTH `avg_bene_resp` and `avg_hmo_mo`, so the months-enrolled average
(query column 4) never reaches the output. -/
theorem c5_avg_hmo_mo_misshaped :
    carrierAvgsEval c5Db "CA" = [("CA", some 10, some 20, some 30)] ∧
    carrier_reimb_avgs_select_state "CA" "cmspop" "cmsclaims" c5Db
      = (.ok ⟨[⟨"CA", some 10, some 20, some 20⟩]⟩,
         [SqlQuery.carrierAvgs "cmspop" "cmsclaims" "CA"]) := by
  constructor
  · decide
  · decide

/-- C6 (code bug): the `InvalidInput` message of
`max_total_cost_state_status` for a rejected STATE and the one of
`hmo_mo_gt_average_for_state_disease` for a rejected DISEASE both carry the
dimension word `Race` (copy-pasted format strings, source lines 468 and
559), not the dimension the value belongs to. -/
theorem c6_wrong_dimension_word :
    max_total_cost_state_status "ZZ" "alive" "cmspop" "cmsclaims" emptyDb
      = (.error (.invalidInput "Race" "ZZ"), []) ∧
    hmo_mo_gt_average_for_state_disease "WA" "blah" "cmspop" "cmsclaims" emptyDb
      = (.error (.invalidInput "Race" "blah"), []) := by
  constructor
  · decide
  · decide

/-- Any filtered row whose ratio equals the maximum appears in the result
of the max-ratio query (the `GROUP BY id, sex, state` keeps every tied
key). -/
theorem mem_dmEval {db : Db} {d s : String} {r : RatioRow}
    (hr : r ∈ dmRows db d s)
    (hmax : listMax ((dmRows db d s).map (·.rval)) = some r.rval) :
    r ∈ dmEval db d s := by
  simp only [dmEval]
  rw [hmax]
  have htied : r ∈ (dmRows db d s).filter (fun x => x.rval = r.rval) :=
    List.mem_filter.mpr ⟨hr, by simp⟩
  have hkey : (r.id, r.sex, r.state) ∈
      (((dmRows db d s).filter (fun x => x.rval = r.rval)).map
        fun x => (x.id, x.sex, x.state)).dedup :=
    List.mem_dedup.mpr (List.mem_map.mpr ⟨r, htied, rfl⟩)
  exact List.mem_map.mpr ⟨(r.id, r.sex, r.state), hkey, rfl⟩

/-- C7: the `maximum`/`minimum` metrics return ALL tied rows.
For `disease_max_carrier_bene_ratio_by_state_sex` (on inputs its query can
execute, i.e. any valid state except the sentinel `Othr`, whose unquoted
interpolation the engine rejects — see the counterexample) every joined,
filtered row whose reimbursement/responsibility ratio equals the maximum
is in the output; for `high_and_low_carrier_reimb_state` every state total
equal to the minimum or the maximum is in the output. -/
theorem c7_all_tied_rows_returned :
    (∀ (db : Db) (disease state : String),
      disease ∈ diseasesList → state ∈ statesList → state ≠ "Othr" →
      ∀ r : RatioRow, r ∈ dmRows db (cleanWord disease) (upperAscii (cleanWord state)) →
        listMax ((dmRows db (cleanWord disease) (upperAscii (cleanWord state))).map (·.rval))
          = some r.rval →
        ∃ out, (disease_max_carrier_bene_ratio_by_state_sex disease state
            "cmspop" "cmsclaims" db).1 = .ok out ∧ r ∈ out.rows) ∧
    (∀ (db : Db) (race : String), cleanWord race ∈ racesList →
      ∀ g : ReimbRow, g ∈ hlGroups db (cleanWord race) →
        (listMin ((hlGroups db (cleanWord race)).map (·.carrier_reimb)) = some g.carrier_reimb ∨
          listMax ((hlGroups db (cleanWord race)).map (·.carrier_reimb)) = some g.carrier_reimb) →
        ∃ out, (high_and_low_carrier_reimb_state race "cmspop" "cmsclaims" db).1 = .ok out ∧
          g ∈ out.rows) := by
  constructor
  · intro db disease state hd hs hOth r hr hmax
    refine ⟨⟨dmEval db (cleanWord disease) (upperAscii (cleanWord state))⟩, ?_, ?_⟩
    · simp [disease_max_carrier_bene_ratio_by_state_sex, hd, hs, hOth]
    · exact mem_dmEval hr hmax
  · intro db race hrace g hg hmm
    refine ⟨⟨hlEval db (cleanWord race)⟩, ?_, ?_⟩
    · simp [high_and_low_carrier_reimb_state, hrace]
    · unfold hlEval
      rw [mem_insertionSort]
      refine List.mem_filter.mpr ⟨hg, ?_⟩
      simpa using hmm

unseal Rat.mul Rat.inv Rat.add Rat.sub in
/-- C7 witness: on a fixture with two subjects tied at the maximal ratio 2
the second tied row is returned, and on the spec's 50/50/200 fixture the
second state tied at the minimal total 50 is returned. -/
theorem c7_witness :
    (∃ out, (disease_max_carrier_bene_ratio_by_state_sex "cancer" "WA"
        "cmspop" "cmsclaims" c7Db).1 = .ok out ∧ (⟨2, "female", "WA", 2⟩ : RatioRow) ∈ out.rows) ∧
    (∃ out, (high_and_low_carrier_reimb_state "black" "cmspop" "cmsclaims" c7RaceDb).1
        = .ok out ∧ (⟨"AL", "black", 50⟩ : ReimbRow) ∈ out.rows) :=
  ⟨c7_all_tied_rows_returned.1 c7Db "cancer" "WA" (by decide) (by decide) (by decide)
      ⟨2, "female", "WA", 2⟩ (by decide) (by decide),
   c7_all_tied_rows_returned.2 c7RaceDb "black" (by decide)
      ⟨"AL", "black", 50⟩ (by decide) (Or.inl (by decide))⟩

unseal Rat.mul Rat.inv Rat.add Rat.sub in
/-- C7 counterexample: `Othr` is a valid state and on this fixture one row
achieves the maximal ratio, yet `disease_max_carrier_bene_ratio_by_state_sex`
returns no rows at all — the unquoted `Othr` interpolation makes the query
fail — so "for every valid input ... returns every identifier achieving
the maximum" is false as stated. -/
theorem c7_counterexample :
    "cancer" ∈ diseasesList ∧ "Othr" ∈ statesList ∧
      dmRows c7OthrDb "cancer" "Othr" = [⟨1, "male", "Othr", 2⟩] ∧
      (disease_max_carrier_bene_ratio_by_state_sex "cancer" "Othr"
          "cmspop" "cmsclaims" c7OthrDb).1
        = .error (.queryError "column othr does not exist") := by
  refine ⟨by decide, by decide, by decide, by decide⟩

/-- The spec's own description of the median computation, in its words:
rank the values in ascending row-number order and average the rows whose
rank falls in the closed interval `[count/2, count/2 + 1]` (rational
bounds, as `ct/2.0` in the SQL). -/
def specWindowMedian (vals : List (Option ℚ)) : Option ℚ :=
  let sorted := insertionSort optLeQ vals
  let ct := sorted.length
  avgQ (sorted.enum.filterMap fun ia =>
    if (ct : ℚ) / 2 ≤ (ia.1 + 1 : ℚ) ∧ (ia.1 + 1 : ℚ) ≤ (ct : ℚ) / 2 + 1 then ia.2 else none)

theorem window_cond_iff (n i : ℕ) :
    (n ≤ 2 * (i + 1) ∧ 2 * (i + 1) ≤ n + 2) ↔
      ((n : ℚ) / 2 ≤ (i + 1 : ℚ) ∧ (i + 1 : ℚ) ≤ (n : ℚ) / 2 + 1) := by
  have hcast : (n ≤ 2 * (i + 1) ∧ 2 * (i + 1) ≤ n + 2) ↔
      ((n : ℚ) ≤ 2 * ((i : ℚ) + 1) ∧ 2 * ((i : ℚ) + 1) ≤ (n : ℚ) + 2) := by
    constructor <;> rintro ⟨h1, h2⟩ <;>
      exact ⟨by exact_mod_cast h1, by exact_mod_cast h2⟩
  rw [hcast]
  constructor <;> rintro ⟨h1, h2⟩ <;> constructor <;> linarith

unseal Rat.mul Rat.inv Rat.add Rat.sub in
/-- C8: the medians of `stat_select_for_sex` are computed by row-number
window ordering, averaging the rows whose rank lies in
`[count/2, count/2 + 1]` (first conjunct: the embedded window median
coincides with the spec's formula for every value list); consequently the
median age is 20 on the odd fixture with ages 10, 20, 30 and 25 on the
even fixture with ages 10, 20, 30, 40. -/
theorem c8_median_by_rank_window :
    (∀ vals : List (Option ℚ), windowAvgQ vals = specWindowMedian vals) ∧
    stat_select_for_sex "median" "male" "cmspop" "cmsclaims" c8OddDb
      = (.ok (.medianRows [⟨"male", some 20, some 2, some 2, some 2⟩]),
         [SqlQuery.statMedian "cmspop" "cmsclaims" "male"]) ∧
    stat_select_for_sex "median" "male" "cmspop" "cmsclaims" c8EvenDb
      = (.ok (.medianRows [⟨"male", some 25, some (5/2), some (5/2), some (5/2)⟩]),
         [SqlQuery.statMedian "cmspop" "cmsclaims" "male"]) := by
  refine ⟨?_, ?_, ?_⟩
  · intro vals
    simp only [windowAvgQ, specWindowMedian]
    refine congrArg avgQ ?_
    refine congrArg (fun f => List.filterMap f (insertionSort optLeQ vals).enum)
      (funext fun ia => ?_)
    exact if_congr (window_cond_iff _ _) rfl rfl
  · have heval : statMedianEval c8OddDb "male"
        = [⟨"male", some 20, some 2, some 2, some 2⟩] := by decide
    unfold stat_select_for_sex
    rw [if_neg (by decide), if_neg (by decide), if_neg (by decide), if_neg (by decide),
      if_neg (by decide), if_pos rfl]
    rw [show cleanWord "male" = "male" from by decide, heval]
  · have heval : statMedianEval c8EvenDb "male"
        = [⟨"male", some 25, some (5/2), some (5/2), some (5/2)⟩] := by decide
    unfold stat_select_for_sex
    rw [if_neg (by decide), if_neg (by decide), if_neg (by decide), if_neg (by decide),
      if_neg (by decide), if_pos rfl]
    rw [show cleanWord "male" = "male" from by decide, heval]

theorem roundHAR_zero : roundHAR 0 = 0 := by
  rw [roundHAR, if_pos le_rfl]
  have h : ⌊(0 : ℝ) * 100 + 1 / 2⌋ = 0 := by
    rw [Int.floor_eq_zero_iff]
    constructor <;> norm_num
  rw [h]
  norm_num

theorem roundHAR_ten : roundHAR 10 = 10 := by
  rw [roundHAR, if_pos (by norm_num)]
  have h : ⌊(10 : ℝ) * 100 + 1 / 2⌋ = 1000 := by
    rw [Int.floor_eq_iff]
    norm_num
  rw [h]
  norm_num

theorem sqrt_hundred : Real.sqrt 100 = 10 := by
  rw [show (100 : ℝ) = 10 ^ 2 by norm_num, Real.sqrt_sq (by norm_num : (0 : ℝ) ≤ 10)]

/-- `sdOf` on a one-row population: the deviation of the single summed
value from the single averaged value, rounded, squared, divided by one,
square-rooted and rounded. -/
theorem sdOf_pair (v m : ℚ) :
    sdOf [some v] [some m]
      = some (roundHAR (Real.sqrt ((roundHA (v - m) ^ 2 : ℚ) : ℝ))) := by
  have h1 : avgQ ([some m].filterMap id) = some m := by
    simp [avgQ]
  unfold sdOf
  rw [h1]
  simp

unseal Rat.mul Rat.inv Rat.add Rat.sub in
/-- C4 (code bug, source lines 930-935, flagged by the spec's design
notes): on a fixture with a single deceased male subject whose claim has
`bene_resp = 10` and `hmo_mo = 20`, the fourth output of
`stat_select_for_sex('sd', 'male')` — aliased `hmo_mo_sd` — is 10: the
query sums `bene_resp` deviations from the `hmo_mo` average instead of
`hmo_mo` deviations from the `hmo_mo` average, whose population standard
deviation on the same fixture is 0 (second conjunct); moreover the three
monetary/month sub-queries never restrict to `dod IS NOT NULL`. -/
theorem c4_sd_fourth_output_uses_bene_resp :
    stat_select_for_sex "sd" "male" "cmspop" "cmsclaims" c4Db
      = (.ok (.sdRows [⟨"male", some 0, some 0, some 0, some 10⟩]),
         [SqlQuery.statSd "cmspop" "cmsclaims" "male"]) ∧
    sdOf [some (20 : ℚ)] [some (20 : ℚ)] = some 0 := by
  have hz : ∀ v : ℚ, sdOf [some v] [some v] = some 0 := by
    intro v
    rw [sdOf_pair]
    have h0 : roundHA (v - v) = 0 := by
      rw [sub_self, roundHA, if_pos le_rfl]
      have : ⌊(0 : ℚ) * 100 + 1 / 2⌋ = 0 := by
        rw [Int.floor_eq_zero_iff]
        constructor <;> norm_num
      rw [this]
      norm_num
    rw [h0]
    norm_num [Real.sqrt_zero, roundHAR_zero]
  have hten : sdOf [some (10 : ℚ)] [some (20 : ℚ)] = some 10 := by
    rw [sdOf_pair]
    have hr : roundHA ((10 : ℚ) - 20) = -10 := by decide
    rw [hr]
    have hcast : (((-10 : ℚ) ^ 2 : ℚ) : ℝ) = 100 := by norm_num
    rw [hcast, sqrt_hundred, roundHAR_ten]
  constructor
  · have hA : dodSexRows c4Db "male"
        = [(⟨1, "white", "male", "WA", 0, some 3650, false, false, false, false⟩,
            some ⟨1, 3, 10, 20⟩)] := by decide
    have hB : sexRows c4Db "male"
        = [(⟨1, "white", "male", "WA", 0, some 3650, false, false, false, false⟩,
            some ⟨1, 3, 10, 20⟩)] := by decide
    have hage : ((ageOf ⟨1, "white", "male", "WA", 0, some 3650, false, false, false, false⟩ : ℤ)
        : ℚ) = 10 := by decide
    have heval : statSdEval c4Db "male" = [⟨"male", some 0, some 0, some 0, some 10⟩] := by
      unfold statSdEval
      rw [hA, hB]
      simp only [List.isEmpty_cons, List.map_cons, List.map_nil, Option.map_some, Option.map_some', hage]
      rw [if_neg (by simp)]
      rw [hz, hz, hten]
    unfold stat_select_for_sex
    rw [if_neg (by decide), if_neg (by decide), if_neg (by decide), if_neg (by decide),
      if_neg (by decide), if_neg (by decide), if_pos rfl]
    rw [show cleanWord "male" = "male" from by decide, heval]
  · exact hz 20

/-- C9: every metric is read-only and idempotent — for any fixed inputs,
one invocation leaves the database unchanged (every statement it executes
is a `SELECT`), and a second invocation against the resulting database
returns the identical shaped output. -/
theorem c9_metrics_read_only_idempotent :
    (∀ col table category (db : Db),
      (runStateful (disease_count_by_race col table category) db).2 = db ∧
      (runStateful (disease_count_by_race col table category)
          (runStateful (disease_count_by_race col table category) db).2).1
        = (runStateful (disease_count_by_race col table category) db).1) ∧
    (∀ d s t1 t2 (db : Db),
      (runStateful (disease_max_carrier_bene_ratio_by_state_sex d s t1 t2) db).2 = db ∧
      (runStateful (disease_max_carrier_bene_ratio_by_state_sex d s t1 t2)
          (runStateful (disease_max_carrier_bene_ratio_by_state_sex d s t1 t2) db).2).1
        = (runStateful (disease_max_carrier_bene_ratio_by_state_sex d s t1 t2) db).1) ∧
    (∀ s t1 t2 (db : Db),
      (runStateful (carrier_reimb_avgs_select_state s t1 t2) db).2 = db ∧
      (runStateful (carrier_reimb_avgs_select_state s t1 t2)
          (runStateful (carrier_reimb_avgs_select_state s t1 t2) db).2).1
        = (runStateful (carrier_reimb_avgs_select_state s t1 t2) db).1) ∧
    (∀ d1 d2 t (db : Db),
      (runStateful (avg_death_age_for_concurrent_disease_by_sex d1 d2 t) db).2 = db ∧
      (runStateful (avg_death_age_for_concurrent_disease_by_sex d1 d2 t)
          (runStateful (avg_death_age_for_concurrent_disease_by_sex d1 d2 t) db).2).1
        = (runStateful (avg_death_age_for_concurrent_disease_by_sex d1 d2 t) db).1) ∧
    (∀ r t1 t2 (db : Db),
      (runStateful (high_and_low_carrier_reimb_state r t1 t2) db).2 = db ∧
      (runStateful (high_and_low_carrier_reimb_state r t1 t2)
          (runStateful (high_and_low_carrier_reimb_state r t1 t2) db).2).1
        = (runStateful (high_and_low_carrier_reimb_state r t1 t2) db).1) ∧
    (∀ s st t1 t2 (db : Db),
      (runStateful (max_total_cost_state_status s st t1 t2) db).2 = db ∧
      (runStateful (max_total_cost_state_status s st t1 t2)
          (runStateful (max_total_cost_state_status s st t1 t2) db).2).1
        = (runStateful (max_total_cost_state_status s st t1 t2) db).1) ∧
    (∀ s d t1 t2 (db : Db),
      (runStateful (hmo_mo_gt_average_for_state_disease s d t1 t2) db).2 = db ∧
      (runStateful (hmo_mo_gt_average_for_state_disease s d t1 t2)
          (runStateful (hmo_mo_gt_average_for_state_disease s d t1 t2) db).2).1
        = (runStateful (hmo_mo_gt_average_for_state_disease s d t1 t2) db).1) ∧
    (∀ s t (db : Db),
      (runStateful (state_avg_life_expectancies_by_sex s t) db).2 = db ∧
      (runStateful (state_avg_life_expectancies_by_sex s t)
          (runStateful (state_avg_life_expectancies_by_sex s t) db).2).1
        = (runStateful (state_avg_life_expectancies_by_sex s t) db).1) ∧
    (∀ s t1 t2 (db : Db),
      (runStateful (claims_deviations_by_state s t1 t2) db).2 = db ∧
      (runStateful (claims_deviations_by_state s t1 t2)
          (runStateful (claims_deviations_by_state s t1 t2) db).2).1
        = (runStateful (claims_deviations_by_state s t1 t2) db).1) ∧
    (∀ st sx t1 t2 (db : Db),
      (runStateful (stat_select_for_sex st sx t1 t2) db).2 = db ∧
      (runStateful (stat_select_for_sex st sx t1 t2)
          (runStateful (stat_select_for_sex st sx t1 t2) db).2).1
        = (runStateful (stat_select_for_sex st sx t1 t2) db).1) :=
  ⟨fun _ _ _ db => runStateful_pure _ db,
   fun _ _ _ _ db => runStateful_pure _ db,
   fun _ _ _ db => runStateful_pure _ db,
   fun _ _ _ db => runStateful_pure _ db,
   fun _ _ _ db => runStateful_pure _ db,
   fun _ _ _ _ db => runStateful_pure _ db,
   fun _ _ _ _ db => runStateful_pure _ db,
   fun _ _ db => runStateful_pure _ db,
   fun _ _ _ db => runStateful_pure _ db,
   fun _ _ _ _ db => runStateful_pure _ db⟩

/-- C10 (amended): on every `table_name` other than `cmspop`,
`disease_count_by_race` performs no validation of the disease argument —
for EVERY `col`, a query carrying the raw string is built and handed to
`execute_query` (first conjunct) — and the branch can never return its
shaped structure (second conjunct); whenever the engine does execute the
query successfully, the `return counts` reference to an unbound name
raises a Python `NameError` (third conjunct). -/
theorem c10_raw_branch_never_returns (col table category : String) (db : Db)
    (h : table ≠ "cmspop") :
    (disease_count_by_race col table category db).2
        = [SqlQuery.diseaseCountRaw table col category] ∧
    (∀ out, (disease_count_by_race col table category db).1 ≠ .ok out) ∧
    (∀ rows res, resolveTable db table = .ok rows →
        diseaseCountEval rows col category = .ok res →
        (disease_count_by_race col table category db).1 = .error (.nameError "counts")) := by
  unfold disease_count_by_race
  rw [if_neg h]
  refine ⟨?_, ?_, ?_⟩
  · cases hres : resolveTable db table with
    | ok rows =>
      cases heval : diseaseCountEval rows col category with
      | ok res => simp [heval]
      | error e => simp [heval]
    | error e => simp
  · intro out
    cases hres : resolveTable db table with
    | ok rows =>
      cases heval : diseaseCountEval rows col category with
      | ok res => simp [heval]
      | error e => simp [heval]
    | error e => simp
  · intro rows res hres heval
    simp [hres, heval]

/-- C10 witness: on a database that does contain a population-shaped table
`tbl`, the unvalidated branch executes its query and then fails with the
`NameError` on `counts`. -/
theorem c10_witness :
    (disease_count_by_race "cancer" "tbl" "race" c10Db).1 = .error (.nameError "counts") ∧
    (disease_count_by_race "cancer" "tbl" "race" c10Db).2
      = [SqlQuery.diseaseCountRaw "tbl" "cancer" "race"] :=
  have h := c10_raw_branch_never_returns "cancer" "tbl" "race" c10Db (by decide)
  ⟨h.2.2 [⟨1, "white", "male", "WA", 0, none, false, false, false, true⟩] [("white", 1)]
      (by decide) (by decide),
   h.1⟩

/-- C10 counterexample: the claim as stated says the branch raises a
`NameError` for EVERY input; on a database without the requested table the
engine rejects the query first, and the branch fails with a
query-execution error instead. -/
theorem c10_counterexample :
    disease_count_by_race "cancer" "tbl" "race" emptyDb
      = (.error (.queryError "relation does not exist"),
         [SqlQuery.diseaseCountRaw "tbl" "cancer" "race"]) ∧
    (disease_count_by_race "cancer" "tbl" "race" emptyDb).1
      ≠ .error (.nameError "counts") := by
  constructor
  · decide
  · decide
